import Mathlib

/-!
Shallow embedding of `src/instagram_follower_compare.py`.

The script loads two JSON exports, extracts a follower set and a following
set, subtracts them, and writes the sorted difference to a text file.  The
embedding models parsed JSON values as the inductive `JSON`, Python's
dynamic-typing failures (`TypeError` on iterating/indexing/`in`-testing a
value of the wrong runtime type, `TypeError` on adding an unhashable value
to a set) as an `Except PyErr` result, the file system seen by the loader
as a map from paths to optional contents, and the report writer as the
text it produces.

Modelling notes:
* JSON numbers are modelled as integers; no claim depends on float
  arithmetic or on Python's numeric cross-type equality (`1 == True`),
  and every concrete instance below involves at most one non-string value.
* JSON objects are association lists as produced by the parser (keys
  unique); key lookup takes the first binding.
* Writing with mode `'w'` truncates the file, so the written content is a
  function of the user set alone; `write_to_file` returns that content.
-/

set_option autoImplicit false

namespace SnakeFinder

/-- A parsed JSON value, the result type of `json.load`. -/
inductive JSON where
  | null
  | bool (b : Bool)
  | num (n : Int)
  | str (s : String)
  | arr (elems : List JSON)
  | obj (fields : List (String × JSON))
  deriving Repr

mutual

/-- Structural equality of JSON values (Python `==` restricted to the
values the claims exercise; the numeric cross-type equalities `1 == True`
of Python are outside the model). -/
def beq : JSON → JSON → Bool
  | .null, .null => true
  | .bool a, .bool b => a == b
  | .num a, .num b => a == b
  | .str a, .str b => a == b
  | .arr xs, .arr ys => beqList xs ys
  | .obj fs, .obj gs => beqFields fs gs
  | _, _ => false

/-- Elementwise equality of JSON arrays. -/
def beqList : List JSON → List JSON → Bool
  | [], [] => true
  | x :: xs, y :: ys => beq x y && beqList xs ys
  | _, _ => false

/-- Entrywise equality of JSON objects. -/
def beqFields : List (String × JSON) → List (String × JSON) → Bool
  | [], [] => true
  | (k, v) :: fs, (k2, v2) :: gs => k == k2 && beq v v2 && beqFields fs gs
  | _, _ => false

end

mutual

/-- Soundness and completeness of `beq`, packaged as the proof term the
`DecidableEq` instance needs. -/
def beq_iff : (a b : JSON) → (beq a b = true ↔ a = b)
  | .null, .null => by simp [beq]
  | .bool _, .bool _ => by simp [beq]
  | .num _, .num _ => by simp [beq]
  | .str _, .str _ => by simp [beq]
  | .arr xs, .arr ys => by
    rw [beq, beqList_iff xs ys]
    simp
  | .obj fs, .obj gs => by
    rw [beq, beqFields_iff fs gs]
    simp
  | .null, .bool _ | .null, .num _ | .null, .str _ | .null, .arr _ | .null, .obj _
  | .bool _, .null | .bool _, .num _ | .bool _, .str _ | .bool _, .arr _ | .bool _, .obj _
  | .num _, .null | .num _, .bool _ | .num _, .str _ | .num _, .arr _ | .num _, .obj _
  | .str _, .null | .str _, .bool _ | .str _, .num _ | .str _, .arr _ | .str _, .obj _
  | .arr _, .null | .arr _, .bool _ | .arr _, .num _ | .arr _, .str _ | .arr _, .obj _
  | .obj _, .null | .obj _, .bool _ | .obj _, .num _ | .obj _, .str _ | .obj _, .arr _ => by
    simp [beq]

/-- Elementwise soundness of `beqList`. -/
def beqList_iff : (xs ys : List JSON) → (beqList xs ys = true ↔ xs = ys)
  | [], [] => by simp [beqList]
  | x :: xs, y :: ys => by
    rw [beqList]
    simp [beq_iff x y, beqList_iff xs ys]
  | [], _ :: _ => by simp [beqList]
  | _ :: _, [] => by simp [beqList]

/-- Entrywise soundness of `beqFields`. -/
def beqFields_iff : (xs ys : List (String × JSON)) → (beqFields xs ys = true ↔ xs = ys)
  | [], [] => by simp [beqFields]
  | (k, v) :: fs, (k2, v2) :: gs => by
    rw [beqFields]
    simp [beq_iff v v2, beqFields_iff fs gs, and_assoc]
  | [], _ :: _ => by simp [beqFields]
  | _ :: _, [] => by simp [beqFields]

end

instance : DecidableEq JSON :=
  fun a b => decidable_of_iff (beq a b = true) (beq_iff a b)

/-- Runtime errors the extraction code can raise in Python. -/
inductive PyErr where
  | typeError
  | keyError
  deriving DecidableEq, Repr

/-- Is `needle` a contiguous sublist of `hay`?  Models Python's substring
test `needle in hay` on strings. -/
def hasSub : List Char → List Char → Bool
  | needle, [] => needle.isEmpty
  | needle, c :: rest => needle.isPrefixOf (c :: rest) || hasSub needle rest

/-- Python iteration `for x in v`: lists yield their elements, dicts their
keys, strings their characters; every other value raises `TypeError`. -/
def pyIter : JSON → Except PyErr (List JSON)
  | .arr elems => .ok elems
  | .obj fields => .ok (fields.map (fun p => JSON.str p.1))
  | .str s => .ok (s.toList.map (fun c => JSON.str (String.singleton c)))
  | _ => .error .typeError

/-- Python membership `key in c` for a string literal `key`: dict key test,
list element test, substring test on strings; `TypeError` otherwise. -/
def pyContains (key : String) : JSON → Except PyErr Bool
  | .obj fields => .ok (fields.lookup key).isSome
  | .arr elems => .ok (elems.contains (JSON.str key))
  | .str s => .ok (hasSub key.toList s.toList)
  | _ => .error .typeError

/-- Python subscript `c[key]` for a string literal `key`: dict lookup
(`KeyError` when absent); every other container raises `TypeError`. -/
def pySubscript (c : JSON) (key : String) : Except PyErr JSON :=
  match c with
  | .obj fields =>
    match fields.lookup key with
    | some v => .ok v
    | none => .error .keyError
  | _ => .error .typeError

/-- Python hashability: strings, numbers, booleans and `None` are hashable;
lists and dicts are not. -/
def isHashable : JSON → Bool
  | .arr _ => false
  | .obj _ => false
  | _ => true

/-- Python `s.add(v)`: inserts a hashable value, raises `TypeError` on an
unhashable one. -/
def pySetAdd (s : Finset JSON) (v : JSON) : Except PyErr (Finset JSON) :=
  if isHashable v then .ok (insert v s) else .error .typeError

/-! ### Loader (`load_json_file`, source lines 21-41) -/

/-- What a file on disk holds, as seen through `json.load`: either text
that fails to parse, or a parsed JSON value.  (`json` is an external
library; its parser is abstracted to this outcome.) -/
inductive FileContent where
  | malformed
  | json (j : JSON)
  deriving DecidableEq

/-- The file system visible to the script: a path either refers to no
file (`none`) or to a file with the given content. -/
def FileSystem := String → Option FileContent

/-- The two error kinds `load_json_file` can raise: `FileNotFoundError`
(with the offending path) from the existence check, and
`json.JSONDecodeError` from `json.load`. -/
inductive LoadError where
  | fileNotFound (filepath : String)
  | jsonDecodeError
  deriving DecidableEq, Repr

/-- `load_json_file(filepath)`: raises `FileNotFoundError` if the path
does not exist, parses the content otherwise, raising `JSONDecodeError`
on invalid JSON. -/
def load_json_file (fs : FileSystem) (filepath : String) : Except LoadError JSON :=
  match fs filepath with
  | none => .error (.fileNotFound filepath)
  | some .malformed => .error .jsonDecodeError
  | some (.json j) => .ok j

/-! ### Extractors (`extract_followers` lines 44-72, `extract_following`
lines 75-103)

Both inner loops have the same shape
`for item in items: if key in item: usernames.add(item[key])`
(with `key = "value"` for followers and `key = "title"` for following);
`collectKey` embeds that loop, threading the accumulated set and
propagating the first raised error. -/

/-- The loop `for item in items: if key in item: s.add(item[key])`. -/
def collectKey (key : String) : Finset JSON → List JSON → Except PyErr (Finset JSON)
  | s, [] => .ok s
  | s, item :: rest =>
    match pyContains key item with
    | .error e => .error e
    | .ok false => collectKey key s rest
    | .ok true =>
      match pySubscript item key with
      | .error e => .error e
      | .ok v =>
        match pySetAdd s v with
        | .error e => .error e
        | .ok s2 => collectKey key s2 rest

/-- The outer loop of `extract_followers`: for each entry, if it has a
`string_list_data` field, run the inner value-collecting loop over it. -/
def extractEntries : Finset JSON → List JSON → Except PyErr (Finset JSON)
  | s, [] => .ok s
  | s, entry :: rest =>
    match pyContains "string_list_data" entry with
    | .error e => .error e
    | .ok false => extractEntries s rest
    | .ok true =>
      match pySubscript entry "string_list_data" with
      | .error e => .error e
      | .ok sld =>
        match pyIter sld with
        | .error e => .error e
        | .ok items =>
          match collectKey "value" s items with
          | .error e => .error e
          | .ok s2 => extractEntries s2 rest

/-- `extract_followers(data)`: iterate the records, collecting the
`value` field of every `string_list_data` item that has one. -/
def extract_followers (data : JSON) : Except PyErr (Finset JSON) :=
  match pyIter data with
  | .error e => .error e
  | .ok entries => extractEntries ∅ entries

/-- `extract_following(data)`: if `relationships_following` is present,
collect the `title` field of each of its records that has one; otherwise
return the empty set. -/
def extract_following (data : JSON) : Except PyErr (Finset JSON) :=
  match pyContains "relationships_following" data with
  | .error e => .error e
  | .ok false => .ok ∅
  | .ok true =>
    match pySubscript data "relationships_following" with
    | .error e => .error e
    | .ok rf =>
      match pyIter rf with
      | .error e => .error e
      | .ok entries => collectKey "title" ∅ entries

/-! ### Differ (`find_non_followers`, lines 106-117) -/

/-- `find_non_followers(following, followers) = following - followers`.
Python's set subtraction works on sets of any element type, so the
embedding is polymorphic; the pipeline applies it to the extracted sets
and the identifier-level claims apply it to sets of strings. -/
def find_non_followers {α : Type} [DecidableEq α] (following followers : Finset α) : Finset α :=
  following \ followers

/-! ### Reporter (`write_to_file`, lines 120-132)

`write_to_file` sorts the set and writes each element followed by a
newline; opening with mode `'w'` truncates, so the resulting file content
is a function of the user set alone, which the embedding returns. -/

/-- The file content produced by `write_to_file(users, path)`: the sorted
users, each followed by a newline. -/
def write_to_file (users : Finset String) : String :=
  String.join ((users.sort (· ≤ ·)).map (fun u => u ++ "\n"))

/-! ### Orchestrator (`main`, lines 135-189) -/

/-- Path of the primary followers file tried by `main`. -/
def followersPrimaryPath : String := "followers_and_following/followers_1.json"

/-- Path of the fallback followers file (alternative export naming). -/
def followersFallbackPath : String := "followers_and_following/followers.json"

/-- Path of the following file. -/
def followingPath : String := "followers_and_following/following.json"

/-- `main` keeps the primary followers path when that file exists and
falls back to the alternative name otherwise (lines 142, 147-148). -/
def resolveFollowersPath (fs : FileSystem) : String :=
  if (fs followersPrimaryPath).isSome then followersPrimaryPath else followersFallbackPath

/-- The observable outcome of a run of `main`: the report file written
with a set of users, the everyone-follows-back success message, or one of
the three error messages of the `try/except` handlers (`FileNotFoundError`,
`json.JSONDecodeError`, and the catch-all `except Exception`). -/
inductive MainResult where
  | wroteFile (users : Finset JSON)
  | allFollowBack
  | errFileNotFound
  | errBadJson
  | errUnexpected
  deriving DecidableEq

/-- `main()`: resolve the followers path, load both files, extract both
sets, diff them, and either write the non-empty difference or report that
everyone follows back; each raised exception reaches the handler of its
kind (`FileNotFoundError` → missing-file message, `JSONDecodeError` →
malformed-JSON message, anything else → the catch-all).  The write step
is recorded as the set handed to `write_to_file`, whose produced content
`write_to_file` models. -/
def main (fs : FileSystem) : MainResult :=
  match load_json_file fs (resolveFollowersPath fs) with
  | .error (.fileNotFound _) => .errFileNotFound
  | .error .jsonDecodeError => .errBadJson
  | .ok followers_data =>
    match load_json_file fs followingPath with
    | .error (.fileNotFound _) => .errFileNotFound
    | .error .jsonDecodeError => .errBadJson
    | .ok following_data =>
      match extract_followers followers_data with
      | .error _ => .errUnexpected
      | .ok followers =>
        match extract_following following_data with
        | .error _ => .errUnexpected
        | .ok following =>
          let not_following_back := find_non_followers following followers
          if not_following_back = ∅ then .allFollowBack
          else .wroteFile not_following_back

/-! ### Spec-side vocabulary

Definitions following the spec's words ("the strings that appear as a
`value` field", "the set of `title` values", "the set difference",
"valid input"), against which the embedded functions are compared. -/

/-- The `key` field of a record, when the record is an object that has
one. -/
def valueAt (key : String) : JSON → Option JSON
  | .obj fields => fields.lookup key
  | _ => none

/-- A record whose optional `key` field, when present, holds a hashable
value. -/
def validHashAt (key : String) : JSON → Bool
  | .obj fields =>
    match fields.lookup key with
    | none => true
    | some v => isHashable v
  | _ => false

/-- A record whose optional `key` field, when present, holds a string. -/
def validStrAt (key : String) : JSON → Bool
  | .obj fields =>
    match fields.lookup key with
    | none => true
    | some (.str _) => true
    | some _ => false
  | _ => false

/-- A valid followers record: an object whose optional `string_list_data`
field, when present, is a list of entries whose optional `value` fields
hold strings (the documented followers format). -/
def validEntry : JSON → Bool
  | .obj fields =>
    match fields.lookup "string_list_data" with
    | none => true
    | some (.arr items) => items.all (validStrAt "value")
    | some _ => false
  | _ => false

/-- A valid followers input: a list of valid followers records. -/
def validFollowersData : JSON → Bool
  | .arr entries => entries.all validEntry
  | _ => false

/-- The `value` fields appearing in a record's `string_list_data` list. -/
def entryValues : JSON → List JSON
  | .obj fields =>
    match fields.lookup "string_list_data" with
    | some (.arr items) => items.filterMap (valueAt "value")
    | _ => []
  | _ => []

/-- All values appearing as a `value` field of some `string_list_data`
entry of the followers input. -/
def followerValues : JSON → List JSON
  | .arr entries => entries.flatMap entryValues
  | _ => []

/-- A valid following input: an object whose optional
`relationships_following` key, when present, maps to a list of records
whose optional `title` fields hold hashable values (the documented
following format; per the code's tolerance the titles need not be
strings). -/
def validFollowingData : JSON → Bool
  | .obj fields =>
    match fields.lookup "relationships_following" with
    | none => true
    | some (.arr records) => records.all (validHashAt "title")
    | some _ => false
  | _ => false

/-- The `title` values of the records under `relationships_following`. -/
def followingTitles : JSON → List JSON
  | .obj fields =>
    match fields.lookup "relationships_following" with
    | some (.arr records) => records.filterMap (valueAt "title")
    | _ => []
  | _ => []

/-- The spec's set difference, written as the spec states it: the
elements of `A` that are not in `B`. -/
def spec_set_diff {α : Type} [DecidableEq α] (A B : Finset α) : Finset α :=
  A.filter (fun x => x ∉ B)

instance {e a : Type} [DecidableEq e] [DecidableEq a] : DecidableEq (Except e a)
  | .error x, .error y => if h : x = y then isTrue (by rw [h]) else isFalse (by simp [h])
  | .ok x, .ok y => if h : x = y then isTrue (by rw [h]) else isFalse (by simp [h])
  | .error _, .ok _ => isFalse (by simp)
  | .ok _, .error _ => isFalse (by simp)

/-! ### Concrete example data used by the witnesses -/

/-- A followers export: one record with two `string_list_data` entries
(one of them missing `value`), one record without `string_list_data`, and
one record repeating the value `alice`. -/
def followersExample : JSON :=
  .arr [
    .obj [("string_list_data", .arr [
      .obj [("value", .str "alice"), ("timestamp", .num 1)],
      .obj [("timestamp", .num 2)]])],
    .obj [("media_list_data", .arr [])],
    .obj [("string_list_data", .arr [
      .obj [("value", .str "alice")],
      .obj [("value", .str "bob")]])]]

/-- A following export: two titled records (one of them `alice`, one
`carol`) and one record without `title`. -/
def followingExample : JSON :=
  .obj [("relationships_following", .arr [
    .obj [("title", .str "alice"), ("string_list_data", .arr [])],
    .obj [("string_list_data", .arr [])],
    .obj [("title", .str "carol")]])]

/-- A followers export whose follower set is `{x, y}`. -/
def followersXY : JSON :=
  .arr [
    .obj [("string_list_data", .arr [.obj [("value", .str "x")]])],
    .obj [("string_list_data", .arr [.obj [("value", .str "y")]])]]

/-- A following export whose following set is `{x, y}`. -/
def followingXY : JSON :=
  .obj [("relationships_following", .arr [
    .obj [("title", .str "x")],
    .obj [("title", .str "y")]])]

/-- A file system holding the mutual-follow scenario: followers and
following both `{x, y}`. -/
def fsMutual : FileSystem := fun p =>
  if p = followersPrimaryPath then some (.json followersXY)
  else if p = followingPath then some (.json followingXY)
  else none

/-- A file system with no files at all. -/
def fsEmpty : FileSystem := fun _ => none

/-- A file system where the followers file exists but is not valid JSON. -/
def fsBadFollowers : FileSystem := fun p =>
  if p = followersPrimaryPath then some .malformed else none

/-! ### Helper lemmas -/

theorem validStrAt_imp_hash (key : String) (j : JSON) (h : validStrAt key j = true) :
    validHashAt key j = true := by
  cases j with
  | obj fields =>
    simp only [validStrAt] at h
    simp only [validHashAt]
    cases hl : fields.lookup key with
    | none => simp
    | some v =>
      rw [hl] at h
      cases v <;> simp_all [isHashable]
  | null => simp [validStrAt] at h
  | bool b => simp [validStrAt] at h
  | num n => simp [validStrAt] at h
  | str s => simp [validStrAt] at h
  | arr elems => simp [validStrAt] at h

/-- On a list of records whose `key` fields are hashable, the collection
loop returns the accumulator united with all present `key` fields. -/
theorem collectKey_ok (key : String) (items : List JSON)
    (h : items.all (validHashAt key) = true) (s : Finset JSON) :
    collectKey key s items = .ok (s ∪ (items.filterMap (valueAt key)).toFinset) := by
  induction items generalizing s with
  | nil => simp [collectKey]
  | cons item rest ih =>
    rw [List.all_cons, Bool.and_eq_true] at h
    obtain ⟨hitem, hrest⟩ := h
    cases item with
    | obj fields =>
      simp only [validHashAt] at hitem
      cases hl : fields.lookup key with
      | none =>
        simp [collectKey, pyContains, hl, ih hrest, List.filterMap_cons, valueAt]
      | some v =>
        rw [hl] at hitem
        simp only [collectKey, pyContains, pySubscript, pySetAdd, hl, Option.isSome_some,
          if_pos hitem, ih hrest, List.filterMap_cons, valueAt, List.toFinset_cons]
        rw [Finset.insert_union, Finset.union_insert]
    | null => simp [validHashAt] at hitem
    | bool b => simp [validHashAt] at hitem
    | num n => simp [validHashAt] at hitem
    | str a => simp [validHashAt] at hitem
    | arr elems => simp [validHashAt] at hitem

/-- On a list of valid followers records, the outer extraction loop
returns the accumulator united with all collected `value` fields. -/
theorem extractEntries_ok (entries : List JSON)
    (h : entries.all validEntry = true) (s : Finset JSON) :
    extractEntries s entries = .ok (s ∪ (entries.flatMap entryValues).toFinset) := by
  induction entries generalizing s with
  | nil => simp [extractEntries]
  | cons entry rest ih =>
    rw [List.all_cons, Bool.and_eq_true] at h
    obtain ⟨hentry, hrest⟩ := h
    cases entry with
    | obj fields =>
      simp only [validEntry] at hentry
      cases hl : fields.lookup "string_list_data" with
      | none =>
        simp [extractEntries, pyContains, hl, ih hrest, entryValues, List.flatMap_cons]
      | some sld =>
        rw [hl] at hentry
        cases sld with
        | arr items =>
          have hitems : items.all (validHashAt "value") = true := by
            rw [List.all_eq_true] at hentry ⊢
            intro x hx
            exact validStrAt_imp_hash "value" x (hentry x hx)
          rw [extractEntries]
          simp only [pyContains, hl, Option.isSome_some, pySubscript, pyIter]
          rw [collectKey_ok "value" items hitems s]
          simp [ih hrest, entryValues, hl, List.flatMap_cons, List.toFinset_append,
            Finset.union_assoc]
        | null => simp at hentry
        | bool b => simp at hentry
        | num n => simp at hentry
        | str a => simp at hentry
        | obj gs => simp at hentry
    | null => simp [validEntry] at hentry
    | bool b => simp [validEntry] at hentry
    | num n => simp [validEntry] at hentry
    | str a => simp [validEntry] at hentry
    | arr elems => simp [validEntry] at hentry

/-- On a valid followers input, `extract_followers` succeeds and returns
exactly the collected `value` fields. -/
theorem extract_followers_ok (data : JSON) (h : validFollowersData data = true) :
    extract_followers data = .ok (followerValues data).toFinset := by
  cases data with
  | arr entries =>
    simp only [validFollowersData] at h
    simp [extract_followers, pyIter, extractEntries_ok entries h, followerValues]
  | null => simp [validFollowersData] at h
  | bool b => simp [validFollowersData] at h
  | num n => simp [validFollowersData] at h
  | str s => simp [validFollowersData] at h
  | obj fields => simp [validFollowersData] at h

/-- On a valid following input, `extract_following` succeeds and returns
exactly the `title` values under `relationships_following`. -/
theorem extract_following_ok (data : JSON) (h : validFollowingData data = true) :
    extract_following data = .ok (followingTitles data).toFinset := by
  cases data with
  | obj fields =>
    simp only [validFollowingData] at h
    cases hl : fields.lookup "relationships_following" with
    | none =>
      simp [extract_following, pyContains, hl, followingTitles]
    | some rf =>
      rw [hl] at h
      cases rf with
      | arr records =>
        rw [extract_following]
        simp only [pyContains, hl, Option.isSome_some, pySubscript, pyIter]
        rw [collectKey_ok "title" records h ∅]
        simp [followingTitles, hl]
      | null => simp at h
      | bool b => simp at h
      | num n => simp at h
      | str s => simp at h
      | obj gs => simp at h
  | null => simp [validFollowingData] at h
  | bool b => simp [validFollowingData] at h
  | num n => simp [validFollowingData] at h
  | str s => simp [validFollowingData] at h
  | arr elems => simp [validFollowingData] at h

/-- On a valid followers input, every collected value is a string. -/
theorem followerValues_strings (data : JSON) (h : validFollowersData data = true) :
    ∀ x ∈ followerValues data, ∃ s, x = JSON.str s := by
  cases data with
  | arr entries =>
    simp only [validFollowersData, List.all_eq_true] at h
    intro x hx
    simp only [followerValues, List.mem_flatMap] at hx
    obtain ⟨entry, hentry, hxentry⟩ := hx
    have hv := h entry hentry
    cases entry with
    | obj fields =>
      simp only [validEntry] at hv
      simp only [entryValues] at hxentry
      cases hl : fields.lookup "string_list_data" with
      | none => rw [hl] at hxentry; simp at hxentry
      | some sld =>
        rw [hl] at hv hxentry
        cases sld with
        | arr items =>
          rw [List.all_eq_true] at hv
          rw [List.mem_filterMap] at hxentry
          obtain ⟨item, hitem, hval⟩ := hxentry
          have hs := hv item hitem
          cases item with
          | obj gs =>
            simp only [valueAt] at hval
            simp only [validStrAt, hval] at hs
            cases x <;> simp_all
          | null => simp [valueAt] at hval
          | bool b => simp [valueAt] at hval
          | num n => simp [valueAt] at hval
          | str a => simp [valueAt] at hval
          | arr elems => simp [valueAt] at hval
        | null => simp at hxentry
        | bool b => simp at hxentry
        | num n => simp at hxentry
        | str a => simp at hxentry
        | obj gs => simp at hxentry
    | null => simp [entryValues] at hxentry
    | bool b => simp [entryValues] at hxentry
    | num n => simp [entryValues] at hxentry
    | str a => simp [entryValues] at hxentry
    | arr elems => simp [entryValues] at hxentry
  | null => simp [validFollowersData] at h
  | bool b => simp [validFollowersData] at h
  | num n => simp [validFollowersData] at h
  | str s => simp [validFollowersData] at h
  | obj fields => simp [validFollowersData] at h

/-- Sorting the set of elements of a sorted duplicate-free list gives
back that list (used to evaluate `Finset.sort` on concrete sets). -/
theorem sort_eq_of_sorted (L : List String) (hn : L.Nodup)
    (hs : L.Sorted (fun a b => a ≤ b)) :
    Finset.sort (fun a b => a ≤ b) L.toFinset = L :=
  (List.toFinset_sort (fun a b => a ≤ b) hn).mpr hs

/-! ### The claims -/

/-- C1: for every two sets of identifiers, `find_non_followers` equals
the set difference `following \ followers` (membership-wise the elements
of the first set absent from the second); it is a pure total function,
and applying it twice to the same two sets yields the same result set. -/
theorem find_non_followers_is_set_diff (following followers : Finset String) :
    find_non_followers following followers = spec_set_diff following followers ∧
    (∀ x, x ∈ find_non_followers following followers ↔
      x ∈ following ∧ x ∉ followers) ∧
    find_non_followers following followers = find_non_followers following followers := by
  refine ⟨?_, ?_, rfl⟩
  · rw [find_non_followers, spec_set_diff, Finset.sdiff_eq_filter]
  · intro x
    rw [find_non_followers]
    exact Finset.mem_sdiff

/-- Witness for C1 at the sets `{a, b}` and `{b}`. -/
theorem find_non_followers_is_set_diff_witness :
    find_non_followers ({"a", "b"} : Finset String) {"b"} =
      spec_set_diff {"a", "b"} {"b"} :=
  (find_non_followers_is_set_diff {"a", "b"} {"b"}).1

/-- C8: for every two sets of identifiers `A` and `B`,
`find_non_followers A B` is empty iff `A ⊆ B`. -/
theorem find_non_followers_empty_iff_subset (A B : Finset String) :
    find_non_followers A B = ∅ ↔ A ⊆ B := by
  rw [find_non_followers]
  exact Finset.sdiff_eq_empty_iff_subset

/-- Witness for C8 at `A = {a}`, `B = {a, b}`. -/
theorem find_non_followers_empty_iff_subset_witness :
    ({"a"} : Finset String) ⊆ {"a", "b"} :=
  (find_non_followers_empty_iff_subset {"a"} {"a", "b"}).mp (by decide)

/-- C9: for followers `{alice, bob}` and following `{alice, carol, dan}`
the non-follow-back set is `{carol, dan}` and the report content is
exactly the text `carol\ndan\n`. -/
theorem scenario_carol_dan :
    find_non_followers ({"alice", "carol", "dan"} : Finset String) {"alice", "bob"} =
      {"carol", "dan"} ∧
    write_to_file {"carol", "dan"} = "carol\ndan\n" := by
  constructor
  · decide
  · have hL : ({"carol", "dan"} : Finset String) = (["carol", "dan"] : List String).toFinset := by
      decide
    rw [write_to_file, hL, sort_eq_of_sorted _ (by decide)
      (by simp [List.sorted_cons, String.le_iff_toList_le]; decide)]
    rfl

/-- C4: for every set of identifiers (account handles, hence nonempty
strings), the report content is one identifier per line, each line
newline-terminated, the lines sorted in non-decreasing lexicographic
order with no duplicates and no blank line, and the lines are exactly the
identifiers; the content depends only on the set (mode `'w'` overwrites),
and the empty set produces an empty file. -/
theorem write_to_file_sorted_report :
    (∀ users : Finset String, ("" : String) ∉ users →
      ∃ L : List String,
        write_to_file users = String.join (L.map (fun u => u ++ "\n")) ∧
        L.Sorted (fun a b => a ≤ b) ∧ L.Nodup ∧ (∀ u ∈ L, u ≠ "") ∧
        L.toFinset = users) ∧
    write_to_file (∅ : Finset String) = "" := by
  constructor
  · intro users hne
    refine ⟨Finset.sort (fun a b => a ≤ b) users, rfl, Finset.sort_sorted _ _,
      Finset.sort_nodup _ _, ?_, Finset.sort_toFinset _ _⟩
    intro u hu h0
    apply hne
    rw [← h0]
    exact (Finset.mem_sort (fun a b => a ≤ b)).mp hu
  · simp only [write_to_file, Finset.sort_empty, List.map_nil]
    rfl

/-- Witness for C4 at the set `{b, a}`. -/
theorem write_to_file_sorted_report_witness :
    ("" : String) ∉ ({"b", "a"} : Finset String) ∧
    ∃ L : List String,
      write_to_file {"b", "a"} = String.join (L.map (fun u => u ++ "\n")) ∧
      L.Sorted (fun a b => a ≤ b) ∧ L.Nodup ∧ (∀ u ∈ L, u ≠ "") ∧
      L.toFinset = {"b", "a"} :=
  ⟨by decide, write_to_file_sorted_report.1 {"b", "a"} (by decide)⟩

/-- C2: on every valid followers input (a list of records, each
optionally carrying a `string_list_data` list of entries whose optional
`value` fields are strings), `extract_followers` returns without error a
duplicate-free set containing exactly the strings appearing as a `value`
field of some `string_list_data` entry; records without
`string_list_data` and entries without `value` are skipped. -/
theorem extract_followers_exact (data : JSON) (h : validFollowersData data = true) :
    ∃ S : Finset JSON, extract_followers data = .ok S ∧
      (∀ x, x ∈ S ↔ x ∈ followerValues data) ∧
      (∀ x ∈ S, ∃ s, x = JSON.str s) := by
  refine ⟨(followerValues data).toFinset, extract_followers_ok data h, ?_, ?_⟩
  · intro x
    exact List.mem_toFinset
  · intro x hx
    exact followerValues_strings data h x (List.mem_toFinset.mp hx)

/-- Witness for C2 at a followers export with a record lacking
`string_list_data`, an entry lacking `value`, and a duplicated value. -/
theorem extract_followers_exact_witness :
    validFollowersData followersExample = true ∧
    ∃ S : Finset JSON, extract_followers followersExample = .ok S ∧
      (∀ x, x ∈ S ↔ x ∈ followerValues followersExample) ∧
      (∀ x ∈ S, ∃ s, x = JSON.str s) :=
  ⟨by decide, extract_followers_exact followersExample (by decide)⟩

/-- C3: on every valid following input (an object whose optional
`relationships_following` key holds a list of records),
`extract_following` returns without error exactly the set of `title`
values of those records, skipping records without `title`; when the
`relationships_following` key is absent it returns the empty set rather
than an error. -/
theorem extract_following_exact (data : JSON) (h : validFollowingData data = true) :
    (∃ S : Finset JSON, extract_following data = .ok S ∧
      (∀ x, x ∈ S ↔ x ∈ followingTitles data)) ∧
    (∀ fields, data = .obj fields →
      fields.lookup "relationships_following" = none →
      extract_following data = .ok ∅) := by
  constructor
  · exact ⟨(followingTitles data).toFinset, extract_following_ok data h,
      fun x => List.mem_toFinset⟩
  · intro fields hf hl
    subst hf
    simp [extract_following, pyContains, hl]

/-- Witness for C3 at a following export with a record lacking `title`,
and at an object lacking the `relationships_following` key. -/
theorem extract_following_exact_witness :
    (validFollowingData followingExample = true ∧
      (∃ S : Finset JSON, extract_following followingExample = .ok S ∧
        (∀ x, x ∈ S ↔ x ∈ followingTitles followingExample))) ∧
    extract_following (.obj [("other", .null)]) = .ok ∅ :=
  ⟨⟨by decide, (extract_following_exact followingExample (by decide)).1⟩,
    (extract_following_exact (.obj [("other", .null)]) (by decide)).2
      [("other", .null)] rfl (by decide)⟩

/-- C10 counterexample: a `string_list_data` entry whose `value` field
holds a non-string JSON value (the empty array) is not added to the
returned set — `extract_followers` raises `TypeError` instead (Python
cannot add an unhashable list to a set), so the claim's universal
statement over all non-string values fails. -/
theorem extract_followers_unhashable_value :
    extract_followers (.arr [.obj [("string_list_data",
      .arr [.obj [("value", .arr [])]])]]) = .error .typeError := by
  decide

/-- C10 (amended): the extractors perform no type validation on
hashable values: a `value` or `title` field holding any hashable JSON
value (string or not — number, boolean, `None`) is added to the returned
set unchanged, so the returned sets are not guaranteed to contain only
strings; an unhashable value (array or object) raises instead. -/
theorem extract_adds_hashable_values_unchanged (v : JSON) (h : isHashable v = true) :
    extract_followers (.arr [.obj [("string_list_data",
      .arr [.obj [("value", v)]])]]) = .ok {v} ∧
    extract_following (.obj [("relationships_following",
      .arr [.obj [("title", v)]])]) = .ok {v} := by
  constructor
  · simp [extract_followers, pyIter, extractEntries, pyContains, pySubscript,
      collectKey, pySetAdd, h, List.lookup]
  · simp [extract_following, pyContains, pySubscript, pyIter,
      collectKey, pySetAdd, h, List.lookup]

/-- Witness for the amended C10 at the non-string value `7`. -/
theorem extract_adds_hashable_values_unchanged_witness :
    isHashable (.num 7) = true ∧
    (extract_followers (.arr [.obj [("string_list_data",
      .arr [.obj [("value", .num 7)]])]]) = .ok {JSON.num 7} ∧
    extract_following (.obj [("relationships_following",
      .arr [.obj [("title", .num 7)]])]) = .ok {JSON.num 7}) :=
  ⟨by decide, extract_adds_hashable_values_unchanged (.num 7) (by decide)⟩

/-- C7 counterexample: a parsed-JSON input of unexpected shape makes
both extractors raise `TypeError` (iterating over, or `in`-testing, a
number), so extraction is not error-free over every parsed-JSON value. -/
theorem extract_raises_on_unexpected_shape :
    extract_followers (.num 0) = .error .typeError ∧
    extract_following (.num 0) = .error .typeError := by
  decide

/-- C7 (amended): differencing never fails — `find_non_followers` is a
pure total function on sets — and the extractors return normally on
every input of the documented valid shape (missing optional fields
included); only inputs of unexpected shape make extraction signal an
error, and loading and writing may fail. -/
theorem extract_total_on_valid_inputs :
    (∀ A B : Finset JSON, find_non_followers A B = A \ B) ∧
    (∀ d : JSON, validFollowersData d = true →
      ∃ S, extract_followers d = .ok S) ∧
    (∀ d : JSON, validFollowingData d = true →
      ∃ S, extract_following d = .ok S) := by
  refine ⟨fun A B => rfl, ?_, ?_⟩
  · intro d h
    exact ⟨_, extract_followers_ok d h⟩
  · intro d h
    exact ⟨_, extract_following_ok d h⟩

/-- Witness for the amended C7 at the example exports. -/
theorem extract_total_on_valid_inputs_witness :
    (∃ S, extract_followers followersExample = .ok S) ∧
    (∃ S, extract_following followingExample = .ok S) :=
  ⟨extract_total_on_valid_inputs.2.1 followersExample (by decide),
    extract_total_on_valid_inputs.2.2 followingExample (by decide)⟩

/-- C5: in any run whose loads and extractions succeed with follower set
`F` and following set `G`, if the computed non-follow-back set is empty
then no output file is written and the distinct everyone-follows-back
success message is reported; the output file is written only when the
non-follow-back set is non-empty. -/
theorem main_skips_write_iff_empty (fs : FileSystem) (d1 d2 : JSON) (F G : Finset JSON)
    (h1 : load_json_file fs (resolveFollowersPath fs) = .ok d1)
    (h2 : load_json_file fs followingPath = .ok d2)
    (h3 : extract_followers d1 = .ok F)
    (h4 : extract_following d2 = .ok G) :
    (find_non_followers G F = ∅ →
      main fs = .allFollowBack ∧ ∀ S, main fs ≠ .wroteFile S) ∧
    (∀ S, main fs = .wroteFile S → find_non_followers G F ≠ ∅) := by
  have hm : main fs = if find_non_followers G F = ∅ then MainResult.allFollowBack
      else MainResult.wroteFile (find_non_followers G F) := by
    simp only [main, h1, h2, h3, h4]
  constructor
  · intro he
    rw [hm, if_pos he]
    exact ⟨rfl, fun S hS => by cases hS⟩
  · intro S hS he
    rw [hm, if_pos he] at hS
    cases hS

/-- Witness for C5 at the mutual-follow scenario: followers and
following both `{x, y}`. -/
theorem main_skips_write_iff_empty_witness :
    find_non_followers ({JSON.str "x", JSON.str "y"} : Finset JSON)
      {JSON.str "x", JSON.str "y"} = ∅ ∧
    main fsMutual = .allFollowBack ∧ ∀ S, main fsMutual ≠ .wroteFile S := by
  have h := main_skips_write_iff_empty fsMutual followersXY followingXY
    {JSON.str "x", JSON.str "y"} {JSON.str "x", JSON.str "y"}
    (by decide) (by decide) (by decide) (by decide)
  exact ⟨by decide, h.1 (by decide)⟩

/-- C6: the loader signals a distinct file-not-found condition exactly
when the path does not exist and a distinct malformed-input condition
exactly when the file exists but is not valid JSON; the two kinds stay
distinguishable up to the top-level handler, which maps each kind to its
own user-facing message (themselves distinct from each other and from
the catch-all). -/
theorem load_error_kinds_distinct :
    (∀ (fs : FileSystem) (path : String),
      (load_json_file fs path = .error (.fileNotFound path) ↔ fs path = none) ∧
      (load_json_file fs path = .error .jsonDecodeError ↔ fs path = some .malformed)) ∧
    (∀ fs : FileSystem, fs (resolveFollowersPath fs) = none →
      main fs = .errFileNotFound) ∧
    (∀ fs : FileSystem, fs (resolveFollowersPath fs) = some .malformed →
      main fs = .errBadJson) ∧
    (∀ (fs : FileSystem) (d : JSON),
      load_json_file fs (resolveFollowersPath fs) = .ok d → fs followingPath = none →
      main fs = .errFileNotFound) ∧
    (∀ (fs : FileSystem) (d : JSON),
      load_json_file fs (resolveFollowersPath fs) = .ok d →
      fs followingPath = some .malformed → main fs = .errBadJson) ∧
    MainResult.errFileNotFound ≠ MainResult.errBadJson ∧
    MainResult.errFileNotFound ≠ MainResult.errUnexpected ∧
    MainResult.errBadJson ≠ MainResult.errUnexpected := by
  refine ⟨?_, ?_, ?_, ?_, ?_, by decide, by decide, by decide⟩
  · intro fs path
    cases hfp : fs path with
    | none => constructor <;> simp [load_json_file, hfp]
    | some c => cases c <;> constructor <;> simp [load_json_file, hfp]
  · intro fs hfp
    simp only [main, load_json_file, hfp]
  · intro fs hfp
    simp only [main, load_json_file, hfp]
  · intro fs d h1 h2
    simp only [main, h1]
    simp only [load_json_file, h2]
  · intro fs d h1 h2
    simp only [main, h1]
    simp only [load_json_file, h2]

/-- Witness for C6 at a file system with no files and at one whose
followers file holds invalid JSON. -/
theorem load_error_kinds_distinct_witness :
    load_json_file fsEmpty followersFallbackPath =
      .error (.fileNotFound followersFallbackPath) ∧
    main fsEmpty = .errFileNotFound ∧
    main fsBadFollowers = .errBadJson :=
  ⟨(load_error_kinds_distinct.1 fsEmpty followersFallbackPath).1.mpr rfl,
    load_error_kinds_distinct.2.1 fsEmpty rfl,
    load_error_kinds_distinct.2.2.1 fsBadFollowers (by decide)⟩

end SnakeFinder


